import Mathlib

/-!
Verification model of `social_scraper.py` (repository ContadorRedesSociales).

Every definition below is a shallow embedding of the correspondingly named
Python function of `social_scraper.py`; machine arithmetic is exact there
(Python ints / `Decimal`), so `Nat`/`ℚ` model it faithfully.
-/

namespace SocialScraper

/-! ### Number parser: `digits` (social_scraper.py, lines 107-124)

The source compiles `_DIGIT_RE = re.compile(r"([\d.,]+)\s*([kmb]?)", re.I)`.
`digits` replaces U+202F by a space, lowercases the text, searches for the
leftmost match, removes every '.' from group 1, turns every ',' into '.',
feeds the result to `Decimal` (which raises on a malformed numeral — the
function does not catch that), multiplies by the suffix factor and
truncates with `int`.
-/

/-- Characters matched by the numeric-token class `[\d.,]` (ASCII digits;
exotic Unicode digits are outside the modelled alphabet). -/
def isNumTokChar (c : Char) : Bool := c.isDigit || c == '.' || c == ','

/-- Whitespace for the regex `\s*` (ASCII whitespace; by the time the regex
runs, U+202F has been replaced by a plain space). -/
def isPySpace (c : Char) : Bool :=
  c == ' ' || c == '\t' || c == '\n' || c == '\r' || c == '\x0b' || c == '\x0c'

/-- `re.search` of `([\d.,]+)\s*([kmb]?)`: group 1 is the leftmost maximal
run of `[\d.,]` characters; the remainder after the run is returned so that
the optional suffix can be read off it. -/
def findNumTok : List Char → Option (List Char × List Char)
  | [] => none
  | c :: cs =>
    if isNumTokChar c then
      some ((c :: cs).takeWhile isNumTokChar, (c :: cs).dropWhile isNumTokChar)
    else findNumTok cs

/-- Group 2 of the regex: after `\s*`, an optional `[kmb]` character
(the text is already lowercase). -/
def suffixOf (rest : List Char) : Option Char :=
  match rest.dropWhile isPySpace with
  | c :: _ => if c == 'k' || c == 'm' || c == 'b' then some c else none
  | [] => none

/-- `_SUFFIX`: `'' ↦ 1`, `'k' ↦ 10^3`, `'m' ↦ 10^6`, `'b' ↦ 10^9`. -/
def suffixFactor : Option Char → Nat
  | none => 1
  | some c => if c == 'k' then 1000 else if c == 'm' then 1000000 else 1000000000

/-- `num_text = m.group(1).replace(".", "").replace(",", ".")`. -/
def normalizeTok (tok : List Char) : List Char :=
  (tok.filter (fun c => c != '.')).map (fun c => if c == ',' then '.' else c)

/-- `Decimal(num_text)` accepts the (sign-free, digits-and-dots) text iff it
has at least one digit and at most one decimal point; otherwise it raises
`InvalidOperation`, which `digits` does not catch. -/
def validDecimal (s : List Char) : Bool :=
  decide (s.count '.' ≤ 1) && s.any Char.isDigit

/-- Value of a digit string, most significant digit first. -/
def natOfDigits (ds : List Char) : Nat :=
  ds.foldl (fun a c => 10 * a + (c.toNat - '0'.toNat)) 0

/-- `int(Decimal(s) * factor)` for a `Decimal`-valid `s`: `Decimal`
arithmetic is exact and `int` truncates toward zero; everything here is
non-negative, so the value is `⌊(I + F/10^d) * factor⌋`. -/
def decTimesFactorFloor (s : List Char) (factor : Nat) : Nat :=
  let ipart := s.takeWhile (fun c => c != '.')
  let fpart := (s.dropWhile (fun c => c != '.')).drop 1
  natOfDigits ipart * factor + natOfDigits fpart * factor / 10 ^ fpart.length

/-- Outcome of a call to `digits`: it returns `None` (no regex match), it
raises an uncaught exception (`Decimal` rejects the normalised token), or
it returns an integer. -/
inductive ParseOutcome
  | noMatch
  | raised
  | value (n : Nat)
  deriving DecidableEq, Repr

/-- `txt.replace("\u202f", " ").lower()` (U+202F is the narrow no-break space), characterwise. -/
def charNorm (c : Char) : Char := if c = '\u202F' then ' ' else c.toLower

/-- `digits(txt)` (social_scraper.py, lines 115-124). -/
def digits (txt : String) : ParseOutcome :=
  match findNumTok (txt.toList.map charNorm) with
  | none => .noMatch
  | some (tok, rest) =>
    let s := normalizeTok tok
    if validDecimal s then .value (decTimesFactorFloor s (suffixFactor (suffixOf rest)))
    else .raised

/-! ### Strategy chaining: `tiktok_followers` (social_scraper.py, lines 172-173)

The source reads `return await _tk_html(user) or await _tk_api(user)`.
Each strategy (after its retry wrapper) yields `Option Nat`: `none` is
Python `None`.  Python `or` is truthiness-based: `None` *and* `0` are both
falsy, so the right operand is evaluated exactly when the left one is
`None` or `0`.
-/

/-- Python `a or b` on optional counts: `a` wins iff it is truthy
(non-`None` and non-zero). -/
def pyOrInt (a b : Option Nat) : Option Nat :=
  match a with
  | some n => if n = 0 then b else some n
  | none => b

/-- `tiktok_followers(user)` as a function of the two strategy outcomes
(`_tk_html` first, `_tk_api` second). -/
def tiktok_followers (s1 s2 : Option Nat) : Option Nat := pyOrInt s1 s2

/-- Whether Python short-circuiting evaluates the second strategy at all:
it does exactly when the first outcome is falsy (`None` or `0`). -/
def consultsSecond (s1 : Option Nat) : Bool :=
  match s1 with
  | some n => n == 0
  | none => true

/-! ### Retry wrapper: `retry_async` (social_scraper.py, lines 127-147)

`for attempt in range(1, times + 1): try: return await fn(...)` —
on exception at the last attempt it logs and returns `None`; otherwise it
sleeps `base ** attempt + random.uniform(0, 1)` and retries.  The call
outcomes are modelled as `op : Nat → Option α` indexed by the (1-based)
attempt number, with `none` = the call raised.  The model returns the
wrapper's result together with the number of calls made and the list of
sleep durations (in order); `jitter a` is the value `random.uniform(0, 1)`
drew before the sleep that follows attempt `a`.
-/

/-- Upper bound of the jitter drawn by `random.uniform(0, 1)` in the
source (the bound is hard-coded, not a parameter). -/
def jitterMax : ℚ := 1

/-- The retry loop from attempt number `attempt` with `remaining` attempts
(including this one) still allowed; returns
(result, number of calls made, sleep durations). -/
def retryAux (op : Nat → Option α) (base : ℚ) (jitter : Nat → ℚ) :
    Nat → Nat → Option α × Nat × List ℚ
  | _, 0 => (none, 0, [])
  | attempt, r + 1 =>
    match op attempt with
    | some v => (some v, 1, [])
    | none =>
      if r = 0 then (none, 1, [])
      else
        let rest := retryAux op base jitter (attempt + 1) r
        (rest.1, rest.2.1 + 1, (base ^ attempt + jitter attempt) :: rest.2.2)

/-- `retry_async(times=times, base=base)` applied to an operation whose
attempt-by-attempt outcomes are `op` (1-based). -/
def retry_async (times : Nat) (op : Nat → Option α) (base : ℚ) (jitter : Nat → ℚ) :
    Option α × Nat × List ℚ :=
  retryAux op base jitter 1 times

/-! ### Per-account update: `gather_followers` (social_scraper.py, lines 257-301)

`gather_followers` builds a dict `upd` and issues exactly one
`COL.update_one({"_id": doc["_id"]}, {"$set": upd})`:
* `if tk := doc.get("tiktok_id")` — truthy check (missing or empty string
  skips the platform); on a hit it always stores
  `{"followers": <result>, "updated_at": now}` even when the result is
  `None`;
* Instagram is identical;
* YouTube first computes `cid = doc.get("youtube_channel_id") or await
  yt_channel_id(yh)`, then `subs = await yt_subscribers(cid) if cid else
  None`, and only `if subs is not None` does it store
  `youtube_channel_id = cid` and `youtube_stats`;
* `upd["last_updated"] = now` always.
The extractors are wrapped in retry and never raise: their outcomes this
cycle are inputs of the model.  `COL.update_one` is *not* wrapped: if the
write raises, the exception escapes `gather_followers`.
-/

/-- Python truthiness of an optional string field (`None` and `""` are
falsy). -/
def truthyStr : Option String → Option String
  | some s => if s.isEmpty then none else some s
  | none => none

/-- Python `a or b` for optional strings. -/
def pyOrStr (a b : Option String) : Option String :=
  match a with
  | some s => if s.isEmpty then b else some s
  | none => b

/-- The fields of a `social_accounts` document that `gather_followers`
reads. -/
structure AccountDoc where
  tiktok_id : Option String
  instagram_id : Option String
  youtube_id : Option String
  youtube_channel_id : Option String
  deriving DecidableEq, Repr

/-- Outcomes, for one account and one cycle, of the four retry-wrapped
extractor calls (`none` = the retries were exhausted or the call reported
no data).  Counts are `Nat`: the parsing paths (`digits`, `int` on `\d+`)
admit no sign. -/
structure ExtractResults where
  tk : Option Nat
  ig : Option Nat
  ytCid : Option String
  ytSubs : Option Nat
  deriving DecidableEq, Repr

/-- A per-platform stats sub-document `{value, updated_at}`. -/
structure StatsField where
  value : Option Nat
  updated_at : Nat
  deriving DecidableEq, Repr

/-- The `$set` document `upd`: a key is `some _` exactly when
`gather_followers` put it into `upd`. -/
structure UpdateDoc where
  tiktok_stats : Option StatsField := none
  instagram_stats : Option StatsField := none
  youtube_channel_id : Option String := none
  youtube_stats : Option StatsField := none
  last_updated : Option Nat := none
  deriving DecidableEq, Repr

/-- `cid = doc.get("youtube_channel_id") or await yt_channel_id(yh)`. -/
def ytCidResult (doc : AccountDoc) (r : ExtractResults) : Option String :=
  pyOrStr doc.youtube_channel_id r.ytCid

/-- `subs = await yt_subscribers(cid) if cid else None`. -/
def ytSubsResult (doc : AccountDoc) (r : ExtractResults) : Option Nat :=
  match truthyStr (ytCidResult doc r) with
  | some _ => r.ytSubs
  | none => none

/-- The `$set` document built by `gather_followers` for account `doc`,
extractor outcomes `r`, at time `now`. -/
def buildUpdate (doc : AccountDoc) (r : ExtractResults) (now : Nat) : UpdateDoc :=
  let u0 : UpdateDoc := {}
  let u1 :=
    match truthyStr doc.tiktok_id with
    | some _ => { u0 with tiktok_stats := some ⟨r.tk, now⟩ }
    | none => u0
  let u2 :=
    match truthyStr doc.instagram_id with
    | some _ => { u1 with instagram_stats := some ⟨r.ig, now⟩ }
    | none => u1
  let u3 :=
    match truthyStr doc.youtube_id with
    | some _ =>
      match ytSubsResult doc r with
      | some s =>
        { u2 with
          youtube_channel_id := ytCidResult doc r
          youtube_stats := some ⟨some s, now⟩ }
      | none => u2
    | none => u2
  { u3 with last_updated := some now }

/-- The stored account document (the fields the update can name, plus
`email`/`verified`/`other` standing for everything the update never
names). -/
structure StoredAccount where
  tiktok_stats : Option StatsField
  instagram_stats : Option StatsField
  youtube_stats : Option StatsField
  youtube_channel_id : Option String
  last_updated : Option Nat
  email : Option String
  verified : Bool
  other : Nat
  deriving DecidableEq, Repr

/-- MongoDB `$set` merge semantics: a key present in the update replaces
that field; every absent key leaves the stored field unchanged; the rest
of the document is untouched. -/
def applyUpdate (s : StoredAccount) (u : UpdateDoc) : StoredAccount :=
  { s with
    tiktok_stats := match u.tiktok_stats with
      | some f => some f
      | none => s.tiktok_stats
    instagram_stats := match u.instagram_stats with
      | some f => some f
      | none => s.instagram_stats
    youtube_stats := match u.youtube_stats with
      | some f => some f
      | none => s.youtube_stats
    youtube_channel_id := match u.youtube_channel_id with
      | some c => some c
      | none => s.youtube_channel_id
    last_updated := match u.last_updated with
      | some t => some t
      | none => s.last_updated }

/-- The writes `gather_followers` issues: exactly one `update_one`,
unconditionally, after the three platform branches. -/
def gatherWrites (doc : AccountDoc) (r : ExtractResults) (now : Nat) : List UpdateDoc :=
  [buildUpdate doc r now]

/-- `gather_followers` as seen by its caller: the extractor outcomes never
raise (each is retry-wrapped), so the only exceptional exit is the
unprotected `COL.update_one` call, modelled by `writeOk`. -/
def gather_followers (doc : AccountDoc) (r : ExtractResults) (now : Nat)
    (writeOk : Bool) : Except Unit UpdateDoc :=
  let upd := buildUpdate doc r now
  if writeOk then Except.ok upd else Except.error ()

/-- One cycle's batch (social_scraper.py, lines 326-335): one task per
document; `asyncio.gather` lets every task run to completion. -/
def runBatch (docs : List AccountDoc) (res : AccountDoc → ExtractResults) (now : Nat)
    (writeOk : AccountDoc → Bool) : List (Except Unit UpdateDoc) :=
  docs.map (fun d => gather_followers d (res d) now (writeOk d))

/-- `await asyncio.gather(*tasks)` with the default
`return_exceptions=False`: it re-raises iff some task raised, which then
escapes the `while True` loop of `main`. -/
def awaitGather (rs : List (Except Unit UpdateDoc)) : Except Unit Unit :=
  if rs.any (fun x => match x with | Except.error _ => true | Except.ok _ => false) then
    Except.error ()
  else Except.ok ()

/-! ### Scheduler loop: `main` (social_scraper.py, lines 324-340)

Each `while True` iteration: record `cycle_start`; create one task per
verified document; `await asyncio.gather(*tasks)`; compute the elapsed
time; `await asyncio.sleep(max(0, LOOP_EVERY - cycle_elapsed))`.
-/

/-- `max(0, LOOP_EVERY - cycle_elapsed)` — the argument of the
`asyncio.sleep` at the bottom of the loop, for target interval `T` and
elapsed duration `D` (floats, modelled as `ℚ`). -/
def computedWait (T D : ℚ) : ℚ := max 0 (T - D)

/-- Events of the scheduler loop, in chronological order. -/
inductive SchedEv
  | cycleStart (k : Nat)
  | taskEvent (k i : Nat)
  | batchDone (k : Nat)
  | sleepDone (k : Nat)
  deriving DecidableEq, Repr

/-- The trace of the first `n` iterations of the `while True` loop: each
iteration contributes, in program order, its start, the events of its
batch (an arbitrary interleaving `batch k` of that cycle's task events,
all of which happen while `await asyncio.gather` is pending), the return
of `asyncio.gather` (the completion barrier) and the end of the sleep. -/
def schedTrace (batch : Nat → List SchedEv) : Nat → List SchedEv
  | 0 => []
  | n + 1 =>
    schedTrace batch n ++
      (SchedEv.cycleStart n :: batch n ++ [SchedEv.batchDone n, SchedEv.sleepDone n])

/-! ### Concurrency limiter (social_scraper.py, lines 322-335)

`sem = asyncio.Semaphore(CONCURRENCY)`; each task runs
`async with sem: await gather_followers(ig_ctx, document)`.
A trace is the history of semaphore-relevant steps, **most recent
first**; `holders` is the set of tasks currently inside the
`async with sem` block.
-/

/-- A task's semaphore-relevant step: entering `async with sem`, running
the body (`ok` records whether `gather_followers` returned or raised),
leaving the block. -/
inductive Act
  | acquire
  | work (ok : Bool)
  | release
  deriving DecidableEq, Repr

/-- The tasks currently holding a semaphore slot after the given history
(most recent event first). -/
def holders : List (Nat × Act) → List Nat
  | [] => []
  | (t, Act.acquire) :: tr => t :: holders tr
  | (_, Act.work _) :: tr => holders tr
  | (t, Act.release) :: tr => (holders tr).erase t

/-- The interleavings `asyncio.Semaphore(N)` admits (most recent event
first).  `acquire` is enabled only when fewer than `N` tasks hold a slot
and the task is not already inside the block; a `work` or `release` step
belongs to a task currently inside the block, because
`async with sem: await gather_followers(...)` is the whole task body. -/
inductive SemTrace (N : Nat) : List (Nat × Act) → Prop
  | nil : SemTrace N []
  | acquire {tr t} : SemTrace N tr → (holders tr).length < N → t ∉ holders tr →
      SemTrace N ((t, Act.acquire) :: tr)
  | work {tr t b} : SemTrace N tr → t ∈ holders tr → SemTrace N ((t, Act.work b) :: tr)
  | release {tr t} : SemTrace N tr → t ∈ holders tr → SemTrace N ((t, Act.release) :: tr)

/-- The complete run of one `worker(document)` (most recent event first):
acquire, body, release — the `async with` exit runs whether or not the
body raised. -/
def workerTrace (t : Nat) (ok : Bool) : List (Nat × Act) :=
  [(t, Act.release), (t, Act.work ok), (t, Act.acquire)]

/-! ## Helper lemmas -/

theorem toNat_ofNat_valid {n : Nat} (h : n < 55296) : (Char.ofNat n).toNat = n := by
  rw [Char.ofNat, dif_pos (Or.inl h)]
  simp [Char.ofNatAux, Char.toNat, UInt32.toNat, BitVec.toNat_ofNatLt]

theorem char_eq_iff_toNat (c d : Char) : (c = d) ↔ c.toNat = d.toNat := by
  constructor
  · intro h; rw [h]
  · intro h
    exact Char.eq_of_val_eq (UInt32.toNat.inj h)

theorem isNumTokChar_iff (c : Char) :
    isNumTokChar c = true ↔ ((48 ≤ c.toNat ∧ c.toNat ≤ 57) ∨ c.toNat = 46 ∨ c.toNat = 44) := by
  have e1 : (UInt32.toBitVec 48).toNat = 48 := by decide
  have e2 : (UInt32.toBitVec 57).toNat = 57 := by decide
  have ed : Char.toNat '.' = 46 := by decide
  have ec : Char.toNat ',' = 44 := by decide
  simp only [isNumTokChar, Char.isDigit, Bool.or_eq_true, Bool.and_eq_true, decide_eq_true_eq,
    beq_iff_eq, char_eq_iff_toNat, UInt32.le_def, BitVec.le_def, e1, e2, ed, ec]
  have hh : c.val.toBitVec.toNat = c.toNat := rfl
  rw [hh]
  tauto

theorem toLower_toNat_cases (c : Char) :
    (65 ≤ c.toNat ∧ c.toNat ≤ 90 ∧ c.toLower.toNat = c.toNat + 32) ∨ c.toLower = c := by
  unfold Char.toLower
  by_cases h : 65 ≤ c.toNat ∧ c.toNat ≤ 90
  · left
    refine ⟨h.1, h.2, ?_⟩
    rw [if_pos ⟨h.1, h.2⟩, toNat_ofNat_valid (by omega)]
  · right
    rw [if_neg ?_]
    intro hc
    exact h ⟨hc.1, hc.2⟩

/-- Lowercasing and the U+202F replacement neither create nor destroy
characters of the class `[\d.,]`. -/
theorem isNumTok_charNorm (c : Char) : isNumTokChar (charNorm c) = isNumTokChar c := by
  unfold charNorm
  by_cases h202 : c = '\u202F'
  · rw [if_pos h202, h202]
    decide
  · rw [if_neg h202]
    rcases toLower_toNat_cases c with ⟨h1, h2, h3⟩ | heq
    · have hl : isNumTokChar c.toLower = false := by
        rw [← Bool.not_eq_true, isNumTokChar_iff, h3]
        omega
      have hc : isNumTokChar c = false := by
        rw [← Bool.not_eq_true, isNumTokChar_iff]
        omega
      rw [hl, hc]
    · rw [heq]

theorem findNumTok_eq_none_iff (l : List Char) :
    findNumTok l = none ↔ ∀ c ∈ l, isNumTokChar c = false := by
  induction l with
  | nil => simp [findNumTok]
  | cons c cs ih =>
    simp only [findNumTok]
    by_cases h : isNumTokChar c
    · rw [if_pos h]
      simp only [List.mem_cons]
      constructor
      · intro hsome
        exact absurd hsome (by simp)
      · intro hall
        exact absurd (hall c (Or.inl rfl)) (by simp [h])
    · rw [if_neg h, ih]
      constructor
      · intro hall d hd
        rcases List.mem_cons.mp hd with rfl | hd'
        · exact Bool.eq_false_iff.mpr h
        · exact hall d hd'
      · intro hall d hd
        exact hall d (List.mem_cons_of_mem _ hd)

theorem digits_eq_noMatch_iff (txt : String) :
    digits txt = ParseOutcome.noMatch ↔ findNumTok (txt.toList.map charNorm) = none := by
  unfold digits
  cases hf : findNumTok (txt.toList.map charNorm) with
  | none => simp
  | some p =>
    obtain ⟨tok, rest⟩ := p
    constructor
    · intro hh
      by_cases hv : validDecimal (normalizeTok tok) <;> simp [hv] at hh
    · intro hh
      cases hh

/-- The no-match criterion transported through `charNorm`. -/
theorem digits_noMatch_chars (txt : String) :
    digits txt = ParseOutcome.noMatch ↔ ∀ c ∈ txt.toList, isNumTokChar c = false := by
  rw [digits_eq_noMatch_iff, findNumTok_eq_none_iff]
  constructor
  · intro hall c hc
    rw [← isNumTok_charNorm c]
    exact hall (charNorm c) (List.mem_map_of_mem _ hc)
  · intro hall c hc
    obtain ⟨a, ha, rfl⟩ := List.mem_map.mp hc
    rw [isNumTok_charNorm a]
    exact hall a ha

theorem digits_raised_iff (txt : String) (tok rest : List Char)
    (hf : findNumTok (txt.toList.map charNorm) = some (tok, rest)) :
    digits txt = ParseOutcome.raised ↔ validDecimal (normalizeTok tok) = false := by
  unfold digits
  rw [hf]
  by_cases hv : validDecimal (normalizeTok tok) <;> simp [hv]

/-! ## Claims -/

/-- C1 counterexample.  The claim asserts `parse("1.2M") = 1 200 000`
(decimal point followed by a suffix read as a fraction) and
`parse("12,345") = 12345` (`,` stripped as a thousands separator).  The
code does neither: it deletes every `.` and turns every `,` into a
decimal point, so `digits "1.2M" = 12 000 000` and `digits "12,345" = 12`. -/
theorem c1_counterexample :
    digits "1.2M" = ParseOutcome.value 12000000 ∧
      digits "1.2M" ≠ ParseOutcome.value 1200000 ∧
      digits "12,345" = ParseOutcome.value 12 ∧
      digits "12,345" ≠ ParseOutcome.value 12345 := by
  refine ⟨by decide, by decide, by decide, by decide⟩

/-- C1 (amended).  Inside the numeric token the parser removes every `.`
(thousands-separator treatment, regardless of any suffix) and treats
every `,` as a decimal point; a fraction therefore arises only from a
comma, is multiplied by the suffix factor and truncated.  Hence
`parse("1,2M") = 1 200 000`, `parse("1.2M") = 12 000 000`,
`parse("134K") = 134 000`, `parse("12,345") = 12`,
`parse("1.234.567") = 1 234 567`, `parse("12.5K") = 125 000`. -/
theorem c1_separator_rule :
    digits "1,2M" = ParseOutcome.value 1200000 ∧
      digits "1.2M" = ParseOutcome.value 12000000 ∧
      digits "134K" = ParseOutcome.value 134000 ∧
      digits "12,345" = ParseOutcome.value 12 ∧
      digits "1.234.567" = ParseOutcome.value 1234567 ∧
      digits "12.5K" = ParseOutcome.value 125000 := by
  refine ⟨by decide, by decide, by decide, by decide, by decide, by decide⟩

/-- C9 counterexample.  The claim says `parse` fails exactly when the
text has no numeric token and otherwise returns an integer without
raising.  `"1,2,3"` contains a numeric token (every one of `1`, `,`, `2`
… matches the class `[\d.,]`), yet `digits` raises an uncaught
`decimal.InvalidOperation`: the normalised numeral `"1.2.3"` has two
decimal points. -/
theorem c9_counterexample :
    digits "1,2,3" = ParseOutcome.raised ∧
      isNumTokChar '1' = true ∧
      digits "1,2,3" ≠ ParseOutcome.noMatch ∧
      (∀ n, digits "1,2,3" ≠ ParseOutcome.value n) := by
  refine ⟨by decide, by decide, by decide, fun n h => by cases h⟩

/-- C9 (amended).  `digits` returns `None` exactly when the text contains
no character of the class `[\d.,]`; when a numeric token exists it
returns an integer unless the normalised token (dots removed, commas
turned into decimal points) is not a valid decimal numeral — in that case
it raises an uncaught exception instead of failing cleanly.  Trailing
text after the match is ignored: `parse("30 followers") = 30`, and
`parse("no digits")` finds no token. -/
theorem c9_parse_failure :
    (∀ txt : String, digits txt = ParseOutcome.noMatch ↔
      ∀ c ∈ txt.toList, isNumTokChar c = false) ∧
    (∀ (txt : String) (tok rest : List Char),
      findNumTok (txt.toList.map charNorm) = some (tok, rest) →
      (digits txt = ParseOutcome.raised ↔ validDecimal (normalizeTok tok) = false)) ∧
    digits "30 followers" = ParseOutcome.value 30 ∧
    digits "no digits" = ParseOutcome.noMatch := by
  exact ⟨digits_noMatch_chars, digits_raised_iff, by decide, by decide⟩

/-- C9 witness: the no-match criterion applied at a concrete input. -/
theorem c9_parse_failure_witness : digits "no digits" = ParseOutcome.noMatch :=
  (c9_parse_failure.1 "no digits").mpr (by decide)

/-- C6 counterexample.  The claim says the first strategy returning a
non-unknown value wins, *including a count of 0*, and that the extractor
is unknown exactly when all strategies are unknown.  Python `or` is
truthiness-based: a first strategy returning `0` does **not**
short-circuit — the second strategy is consulted, and if it returns
`None` the extractor returns unknown although strategy 1 had a value. -/
theorem c6_counterexample :
    consultsSecond (some 0) = true ∧
      tiktok_followers (some 0) none = none ∧
      some 0 ≠ (none : Option Nat) := by
  refine ⟨rfl, rfl, by decide⟩

/-- C6 (amended).  The strategies are tried in order and the first one
returning a *truthy* value (non-`None` and non-zero) wins without the
later strategy being consulted; a first result of `None` **or `0`** falls
through, and the extractor then returns the second strategy's value
as-is; the extractor is unknown iff the first strategy was falsy and the
second returned unknown. -/
theorem c6_strategy_chain :
    ∀ s1 s2 : Option Nat,
      (∀ n, s1 = some n → n ≠ 0 →
        tiktok_followers s1 s2 = some n ∧ consultsSecond s1 = false) ∧
      (s1 = none ∨ s1 = some 0 →
        tiktok_followers s1 s2 = s2 ∧ consultsSecond s1 = true) ∧
      (tiktok_followers s1 s2 = none ↔ (s1 = none ∨ s1 = some 0) ∧ s2 = none) := by
  intro s1 s2
  refine ⟨?_, ?_, ?_⟩
  · rintro n rfl hn
    constructor
    · simp [tiktok_followers, pyOrInt, hn]
    · simp [consultsSecond, hn]
  · rintro (rfl | rfl)
    · exact ⟨rfl, rfl⟩
    · exact ⟨rfl, rfl⟩
  · cases s1 with
    | none => simp [tiktok_followers, pyOrInt]
    | some n =>
      by_cases hn : n = 0
      · subst hn
        simp [tiktok_followers, pyOrInt]
      · simp [tiktok_followers, pyOrInt, hn]

/-- C6 witness: a non-zero first strategy wins and the second is not
consulted. -/
theorem c6_strategy_chain_witness :
    tiktok_followers (some 3) (some 7) = some 3 ∧ consultsSecond (some 3) = false :=
  (c6_strategy_chain (some 3) (some 7)).1 3 rfl (by decide)

theorem retryAux_succ_eq {α : Type} (op : Nat → Option α) (base : ℚ) (jitter : Nat → ℚ)
    (attempt r : Nat) :
    retryAux op base jitter attempt (r + 1) =
      match op attempt with
      | some v => (some v, 1, [])
      | none =>
        if r = 0 then (none, 1, [])
        else
          ((retryAux op base jitter (attempt + 1) r).1,
           (retryAux op base jitter (attempt + 1) r).2.1 + 1,
           (base ^ attempt + jitter attempt) :: (retryAux op base jitter (attempt + 1) r).2.2) := by
  rw [retryAux]
  rfl

theorem retryAux_all_fail {α : Type} (op : Nat → Option α) (base : ℚ) (jitter : Nat → ℚ)
    (h : ∀ k, op k = none) :
    ∀ r attempt : Nat, retryAux op base jitter attempt (r + 1) =
      (none, r + 1, (List.range' attempt r).map (fun a => base ^ a + jitter a)) := by
  intro r
  induction r with
  | zero =>
    intro attempt
    simp [retryAux, h attempt]
  | succ n ih =>
    intro attempt
    rw [retryAux_succ_eq, h attempt]
    dsimp only
    rw [if_neg (Nat.succ_ne_zero n), ih (attempt + 1)]
    simp [List.range']

theorem retryAux_succeed {α : Type} (op : Nat → Option α) (base : ℚ) (jitter : Nat → ℚ) :
    ∀ (r attempt : Nat) (v : α), (∀ k, attempt ≤ k → k < attempt + r → op k = none) →
      op (attempt + r) = some v →
      retryAux op base jitter attempt (r + 1) =
        (some v, r + 1, (List.range' attempt r).map (fun a => base ^ a + jitter a)) := by
  intro r
  induction r with
  | zero =>
    intro attempt v _ hv
    rw [Nat.add_zero] at hv
    simp [retryAux, hv]
  | succ n ih =>
    intro attempt v hfail hv
    have h0 : op attempt = none := hfail attempt (le_refl _) (by omega)
    have hv' : op (attempt + 1 + n) = some v := by
      have e : attempt + 1 + n = attempt + (n + 1) := by omega
      rw [e]
      exact hv
    have ihh := ih (attempt + 1) v (fun k hk1 hk2 => hfail k (by omega) (by omega)) hv'
    rw [retryAux_succ_eq, h0]
    dsimp only
    rw [if_neg (Nat.succ_ne_zero n), ihh]
    simp [List.range']

theorem retryAux_sleep_form {α : Type} (op : Nat → Option α) (base : ℚ) (jitter : Nat → ℚ) :
    ∀ (r attempt : Nat) (s : ℚ), s ∈ (retryAux op base jitter attempt r).2.2 →
      ∃ a, s = base ^ a + jitter a := by
  intro r
  induction r with
  | zero =>
    intro attempt s hs
    simp [retryAux] at hs
  | succ n ih =>
    intro attempt s hs
    rw [retryAux_succ_eq] at hs
    cases hop : op attempt with
    | some v =>
      rw [hop] at hs
      simp at hs
    | none =>
      rw [hop] at hs
      dsimp only at hs
      by_cases hn : n = 0
      · subst hn
        simp at hs
      · rw [if_neg hn] at hs
        simp only [List.mem_cons] at hs
        rcases hs with rfl | hs'
        · exact ⟨attempt, rfl⟩
        · exact ih (attempt + 1) s hs'

/-- C3.  The retry wrapper: an operation raising on every call is invoked
exactly `times` times, the wrapper returns `None` (never re-raising —
its result is a value, not an exception) after `times − 1` sleeps; an
operation failing exactly `times − 1` times and then succeeding yields
the success value after exactly `times − 1` sleeps; the sleep after
attempt `a` lasts `base ^ a + jitter a` with `0 ≤ jitter a ≤ jitterMax`
(the code draws `random.uniform(0, 1)`, so its jitter bound is the
constant 1). -/
theorem c3_retry_policy {α : Type} (times : Nat) (op : Nat → Option α) (base : ℚ)
    (jitter : Nat → ℚ) (hj : ∀ a, 0 ≤ jitter a ∧ jitter a ≤ jitterMax) :
    ((∀ k, op k = none) → retry_async times op base jitter =
      (none, times, (List.range' 1 (times - 1)).map (fun a => base ^ a + jitter a))) ∧
    (∀ v : α, 1 ≤ times → (∀ k, k < times → op k = none) → op times = some v →
      retry_async times op base jitter =
        (some v, times, (List.range' 1 (times - 1)).map (fun a => base ^ a + jitter a))) ∧
    (∀ s ∈ (retry_async times op base jitter).2.2,
      ∃ a, s = base ^ a + jitter a ∧ base ^ a ≤ s ∧ s ≤ base ^ a + jitterMax) := by
  refine ⟨?_, ?_, ?_⟩
  · intro hfail
    cases times with
    | zero => simp [retry_async, retryAux, List.range']
    | succ t =>
      have := retryAux_all_fail op base jitter hfail t 1
      simpa [retry_async] using this
  · intro v h1 hfail hv
    cases times with
    | zero => omega
    | succ t =>
      have hv' : op (1 + t) = some v := by
        have e : 1 + t = t + 1 := by omega
        rw [e]
        exact hv
      have := retryAux_succeed op base jitter t 1 v
        (fun k hk1 hk2 => hfail k (by omega)) hv'
      simpa [retry_async] using this
  · intro s hs
    obtain ⟨a, rfl⟩ := retryAux_sleep_form op base jitter times 1 s hs
    exact ⟨a, rfl, by linarith [(hj a).1], by linarith [(hj a).2]⟩

/-- C3 witness: three attempts, always failing, with zero jitter drawn:
three calls, result `None`, sleeps `1.6^1`-style durations `2^1` and
`2^2`. -/
theorem c3_retry_policy_witness :
    retry_async 3 (fun _ => (none : Option Nat)) 2 (fun _ => 0) = (none, 3, [2, 4]) := by
  have h := (c3_retry_policy 3 (fun _ => (none : Option Nat)) 2 (fun _ => 0)
    (fun a => ⟨le_refl 0, by norm_num [jitterMax]⟩)).1 (fun k => rfl)
  rw [h]
  norm_num [List.range']

theorem buildUpdate_fields (doc : AccountDoc) (r : ExtractResults) (now : Nat) :
    (buildUpdate doc r now).tiktok_stats =
      (match truthyStr doc.tiktok_id with
        | some _ => some (StatsField.mk r.tk now)
        | none => none) ∧
    (buildUpdate doc r now).instagram_stats =
      (match truthyStr doc.instagram_id with
        | some _ => some (StatsField.mk r.ig now)
        | none => none) ∧
    (buildUpdate doc r now).youtube_stats =
      (match truthyStr doc.youtube_id, ytSubsResult doc r with
        | some _, some v => some (StatsField.mk (some v) now)
        | _, _ => none) ∧
    (buildUpdate doc r now).youtube_channel_id =
      (match truthyStr doc.youtube_id, ytSubsResult doc r with
        | some _, some _ => ytCidResult doc r
        | _, _ => none) ∧
    (buildUpdate doc r now).last_updated = some now := by
  unfold buildUpdate
  rcases htk : truthyStr doc.tiktok_id with _ | t <;>
    rcases hig : truthyStr doc.instagram_id with _ | i <;>
      rcases hyt : truthyStr doc.youtube_id with _ | y <;>
        rcases hsub : ytSubsResult doc r with _ | v <;>
          simp [htk, hig, hyt, hsub]

theorem applyUpdate_frame (s : StoredAccount) (u : UpdateDoc) :
    (applyUpdate s u).email = s.email ∧
    (applyUpdate s u).verified = s.verified ∧
    (applyUpdate s u).other = s.other ∧
    (u.tiktok_stats = none → (applyUpdate s u).tiktok_stats = s.tiktok_stats) ∧
    (u.instagram_stats = none → (applyUpdate s u).instagram_stats = s.instagram_stats) ∧
    (u.youtube_stats = none → (applyUpdate s u).youtube_stats = s.youtube_stats) ∧
    (u.youtube_channel_id = none → (applyUpdate s u).youtube_channel_id = s.youtube_channel_id) := by
  refine ⟨rfl, rfl, rfl, ?_, ?_, ?_, ?_⟩ <;>
    (intro h; unfold applyUpdate; rw [h])

/-- C2 counterexample.  The claim says a failed extraction stores null
for *all three* platform branches alike.  For YouTube it does not: when
`yt_subscribers` yields nothing, `gather_followers` omits
`youtube_stats` from the update entirely, so the previous stored value
(here 500, with its old timestamp) is left in place — not set to null. -/
theorem c2_counterexample :
    truthyStr (AccountDoc.mk none none (some "chan") (some "cid")).youtube_id ≠ none ∧
    ytSubsResult (AccountDoc.mk none none (some "chan") (some "cid"))
      (ExtractResults.mk none none none none) = none ∧
    (buildUpdate (AccountDoc.mk none none (some "chan") (some "cid"))
      (ExtractResults.mk none none none none) 1).youtube_stats = none ∧
    (applyUpdate
      (StoredAccount.mk none none (some (StatsField.mk (some 500) 0)) (some "cid")
        (some 0) none true 0)
      (buildUpdate (AccountDoc.mk none none (some "chan") (some "cid"))
        (ExtractResults.mk none none none none) 1)).youtube_stats
      = some (StatsField.mk (some 500) 0) := by
  refine ⟨by decide, by decide, by decide, by decide⟩

/-- C2 (amended).  Stored counts are [Option] `Nat`-valued (the extraction
paths parse unsigned tokens), and for the TikTok and Instagram branches a
failed extraction stores null — a fresh `{followers: None, updated_at}`
sub-document, never zero and never the stale value.  The YouTube branch
differs: on failure the update omits `youtube_stats`, so the previously
stored value stays in place. -/
theorem c2_failed_extraction (doc : AccountDoc) (r : ExtractResults) (now : Nat)
    (s : StoredAccount) :
    (truthyStr doc.tiktok_id ≠ none →
      (buildUpdate doc r now).tiktok_stats = some (StatsField.mk r.tk now) ∧
      (applyUpdate s (buildUpdate doc r now)).tiktok_stats = some (StatsField.mk r.tk now)) ∧
    (truthyStr doc.instagram_id ≠ none →
      (buildUpdate doc r now).instagram_stats = some (StatsField.mk r.ig now) ∧
      (applyUpdate s (buildUpdate doc r now)).instagram_stats
        = some (StatsField.mk r.ig now)) ∧
    (truthyStr doc.youtube_id ≠ none → ytSubsResult doc r = none →
      (buildUpdate doc r now).youtube_stats = none ∧
      (applyUpdate s (buildUpdate doc r now)).youtube_stats = s.youtube_stats) := by
  refine ⟨?_, ?_, ?_⟩
  · intro h
    obtain ⟨x, hx⟩ := Option.ne_none_iff_exists'.mp h
    have h1 := (buildUpdate_fields doc r now).1
    rw [hx] at h1
    refine ⟨h1, ?_⟩
    unfold applyUpdate
    rw [h1]
  · intro h
    obtain ⟨x, hx⟩ := Option.ne_none_iff_exists'.mp h
    have h1 := (buildUpdate_fields doc r now).2.1
    rw [hx] at h1
    refine ⟨h1, ?_⟩
    unfold applyUpdate
    rw [h1]
  · intro h hsub
    obtain ⟨x, hx⟩ := Option.ne_none_iff_exists'.mp h
    have h1 := (buildUpdate_fields doc r now).2.2.1
    rw [hx, hsub] at h1
    exact ⟨h1, ((applyUpdate_frame s (buildUpdate doc r now)).2.2.2.2.2.1) h1⟩

/-- C2 witness: a TikTok-only account whose extraction failed gets a
fresh null stored. -/
theorem c2_failed_extraction_witness :
    (buildUpdate (AccountDoc.mk (some "u") none none none)
      (ExtractResults.mk none none none none) 7).tiktok_stats
      = some (StatsField.mk none 7) :=
  ((c2_failed_extraction (AccountDoc.mk (some "u") none none none)
    (ExtractResults.mk none none none none) 7
    (StoredAccount.mk none none none none none none true 0)).1 (by decide)).1

/-- C8 counterexample.  The claim says the update sets only per-platform
stats sub-documents plus `last_updated` and leaves every other field of
the account document unchanged.  When YouTube resolution succeeds,
`gather_followers` also writes `youtube_channel_id` — a field that is
neither a stats sub-document nor `last_updated` — changing it from
`none` to the freshly resolved id. -/
theorem c8_counterexample :
    (buildUpdate (AccountDoc.mk none none (some "h") none)
      (ExtractResults.mk none none (some "UC1") (some 10)) 5).youtube_channel_id
      = some "UC1" ∧
    (applyUpdate (StoredAccount.mk none none none none none none true 0)
      (buildUpdate (AccountDoc.mk none none (some "h") none)
        (ExtractResults.mk none none (some "UC1") (some 10)) 5)).youtube_channel_id
      ≠ (StoredAccount.mk none none none none none none true 0).youtube_channel_id := by
  refine ⟨by decide, by decide⟩

/-- C8 (amended).  The write is a `$set` partial merge, never a whole-
document replacement: fields the update does not name (`email`,
`verified`, the rest of the document) are unchanged, and a platform
without a handle has its stats left untouched.  The update sets
`tiktok_stats`/`instagram_stats` for attempted platforms,
`youtube_stats` only when the YouTube extraction succeeded — in which
case it also writes back the cached `youtube_channel_id` — plus
`last_updated` always. -/
theorem c8_partial_merge (doc : AccountDoc) (r : ExtractResults) (now : Nat)
    (s : StoredAccount) :
    ((applyUpdate s (buildUpdate doc r now)).email = s.email ∧
      (applyUpdate s (buildUpdate doc r now)).verified = s.verified ∧
      (applyUpdate s (buildUpdate doc r now)).other = s.other) ∧
    (truthyStr doc.tiktok_id = none →
      (buildUpdate doc r now).tiktok_stats = none ∧
      (applyUpdate s (buildUpdate doc r now)).tiktok_stats = s.tiktok_stats) ∧
    (truthyStr doc.instagram_id = none →
      (buildUpdate doc r now).instagram_stats = none ∧
      (applyUpdate s (buildUpdate doc r now)).instagram_stats = s.instagram_stats) ∧
    (truthyStr doc.youtube_id = none →
      (buildUpdate doc r now).youtube_stats = none ∧
      (buildUpdate doc r now).youtube_channel_id = none) ∧
    (buildUpdate doc r now).last_updated = some now ∧
    (∀ v, ytSubsResult doc r = some v → truthyStr doc.youtube_id ≠ none →
      (buildUpdate doc r now).youtube_stats = some (StatsField.mk (some v) now) ∧
      (buildUpdate doc r now).youtube_channel_id = ytCidResult doc r) := by
  obtain ⟨h1, h2, h3, h4, h5⟩ := buildUpdate_fields doc r now
  obtain ⟨f1, f2, f3, f4, f5, f6, f7⟩ := applyUpdate_frame s (buildUpdate doc r now)
  refine ⟨⟨f1, f2, f3⟩, ?_, ?_, ?_, h5, ?_⟩
  · intro h
    rw [h] at h1
    exact ⟨h1, f4 h1⟩
  · intro h
    rw [h] at h2
    exact ⟨h2, f5 h2⟩
  · intro h
    rw [h] at h3 h4
    constructor
    · rw [h3]
    · rw [h4]
  · intro v hv hyt
    obtain ⟨x, hx⟩ := Option.ne_none_iff_exists'.mp hyt
    rw [hx, hv] at h3 h4
    exact ⟨h3, h4⟩

/-- C8 witness: for an account with no handles at all, the merge leaves
every stored field untouched except `last_updated`. -/
theorem c8_partial_merge_witness :
    (applyUpdate (StoredAccount.mk none none none none none (some "e") true 3)
      (buildUpdate (AccountDoc.mk none none none none)
        (ExtractResults.mk none none none none) 9)).email = some "e" :=
  (c8_partial_merge (AccountDoc.mk none none none none)
    (ExtractResults.mk none none none none) 9
    (StoredAccount.mk none none none none none (some "e") true 3)).1.1

/-- C10.  `gather_followers` always issues exactly one store update; that
update always carries `last_updated = now`; and for an account with no
(truthy) platform handle the update consists of `last_updated` alone —
this also holds when every extraction returned unknown, since the update
list and `last_updated` do not depend on `r`. -/
theorem c10_always_one_update (doc : AccountDoc) (r : ExtractResults) (now : Nat) :
    (gatherWrites doc r now).length = 1 ∧
    gatherWrites doc r now = [buildUpdate doc r now] ∧
    (buildUpdate doc r now).last_updated = some now ∧
    (truthyStr doc.tiktok_id = none → truthyStr doc.instagram_id = none →
      truthyStr doc.youtube_id = none →
      buildUpdate doc r now = { last_updated := some now }) := by
  refine ⟨rfl, rfl, (buildUpdate_fields doc r now).2.2.2.2, ?_⟩
  intro h1 h2 h3
  unfold buildUpdate
  rw [h1, h2, h3]

/-- C10 witness: an account with no handles, every extraction unknown —
still one update, containing only `last_updated`. -/
theorem c10_always_one_update_witness :
    buildUpdate (AccountDoc.mk none none none none)
      (ExtractResults.mk none none none none) 4 = { last_updated := some 4 } :=
  (c10_always_one_update (AccountDoc.mk none none none none)
    (ExtractResults.mk none none none none) 4).2.2.2 (by decide) (by decide) (by decide)

/-- C7 counterexample.  The claim says a failure of the result write is
logged and affects neither in-memory state nor other accounts.  In the
code `COL.update_one` is not guarded: the write failure escapes
`gather_followers` as an exception (no logging branch exists for it),
and `await asyncio.gather` then re-raises it out of the `while` loop —
aborting the scheduler — even though the other account's task succeeded. -/
theorem c7_counterexample :
    gather_followers (AccountDoc.mk (some "a") none none none)
      (ExtractResults.mk (some 5) none none none) 0 false = Except.error () ∧
    awaitGather (runBatch
      [AccountDoc.mk (some "a") none none none, AccountDoc.mk (some "b") none none none]
      (fun _ => ExtractResults.mk (some 5) none none none) 0
      (fun d => d.tiktok_id == some "b")) = Except.error () ∧
    gather_followers (AccountDoc.mk (some "b") none none none)
      (ExtractResults.mk (some 5) none none none) 0 true
      = Except.ok (buildUpdate (AccountDoc.mk (some "b") none none none)
          (ExtractResults.mk (some 5) none none none) 0) := by
  refine ⟨rfl, rfl, rfl⟩

/-- C7 (amended).  Per-platform *extraction* failures are contained: for
every combination of extractor outcomes (including all-unknown)
`gather_followers` returns normally with its single update, and a failed
platform does not prevent the other platforms' entries — so the batch and
the loop survive any extraction failure.  A *write* failure, however, is
not caught: it escapes `gather_followers`, and the cycle's
`asyncio.gather` re-raises it out of the scheduler loop. -/
theorem c7_containment (doc : AccountDoc) (r : ExtractResults) (now : Nat) :
    gather_followers doc r now true = Except.ok (buildUpdate doc r now) ∧
    (truthyStr doc.tiktok_id ≠ none →
      (buildUpdate doc r now).tiktok_stats = some (StatsField.mk r.tk now)) ∧
    (truthyStr doc.instagram_id ≠ none →
      (buildUpdate doc r now).instagram_stats = some (StatsField.mk r.ig now)) ∧
    gather_followers doc r now false = Except.error () ∧
    (∀ (docs : List AccountDoc) (res : AccountDoc → ExtractResults) (w : AccountDoc → Bool),
      (∀ d ∈ docs, w d = true) → awaitGather (runBatch docs res now w) = Except.ok ()) ∧
    (∀ (docs : List AccountDoc) (res : AccountDoc → ExtractResults) (w : AccountDoc → Bool),
      (∃ d ∈ docs, w d = false) → awaitGather (runBatch docs res now w) = Except.error ()) := by
  refine ⟨rfl, ?_, ?_, rfl, ?_, ?_⟩
  · intro h
    obtain ⟨x, hx⟩ := Option.ne_none_iff_exists'.mp h
    have h1 := (buildUpdate_fields doc r now).1
    rw [hx] at h1
    exact h1
  · intro h
    obtain ⟨x, hx⟩ := Option.ne_none_iff_exists'.mp h
    have h1 := (buildUpdate_fields doc r now).2.1
    rw [hx] at h1
    exact h1
  · intro docs res w hall
    unfold awaitGather
    rw [if_neg]
    intro hany
    rw [List.any_eq_true] at hany
    obtain ⟨x, hx, hbad⟩ := hany
    obtain ⟨d, hd, rfl⟩ := List.mem_map.mp hx
    unfold gather_followers at hbad
    rw [hall d hd] at hbad
    simp at hbad
  · intro docs res w hex
    obtain ⟨d, hd, hw⟩ := hex
    unfold awaitGather
    rw [if_pos]
    refine List.any_eq_true.mpr
      ⟨gather_followers d (res d) now (w d), List.mem_map_of_mem _ hd, ?_⟩
    unfold gather_followers
    rw [hw]
    simp

/-- C7 witness: one account with extraction completely failed but the
write succeeding — the batch finishes and the loop goes on. -/
theorem c7_containment_witness :
    awaitGather (runBatch [AccountDoc.mk (some "u") none none none]
      (fun _ => ExtractResults.mk none none none none) 0 (fun _ => true))
      = Except.ok () :=
  (c7_containment (AccountDoc.mk (some "u") none none none)
    (ExtractResults.mk none none none none) 0).2.2.2.2.1
    [AccountDoc.mk (some "u") none none none]
    (fun _ => ExtractResults.mk none none none none) (fun _ => true)
    (fun _ _ => rfl)

theorem schedTrace_mono (batch : Nat → List SchedEv) :
    ∀ n m : Nat, m ≤ n → ∃ R, schedTrace batch n = schedTrace batch m ++ R := by
  intro n
  induction n with
  | zero =>
    intro m hm
    have h0 : m = 0 := Nat.le_zero.mp hm
    subst h0
    exact ⟨[], by simp [schedTrace]⟩
  | succ n ih =>
    intro m hm
    rcases Nat.lt_or_ge m (n + 1) with h | h
    · obtain ⟨R, hR⟩ := ih m (by omega)
      refine ⟨R ++ (SchedEv.cycleStart n :: batch n ++
        [SchedEv.batchDone n, SchedEv.sleepDone n]), ?_⟩
      rw [schedTrace, hR, List.append_assoc]
    · have h1 : m = n + 1 := by omega
      subst h1
      exact ⟨[], by simp⟩

/-- C4.  The wait computed at the end of a cycle is `max(0, T − D)` —
never negative, `T − D` when the cycle fit in the interval, zero when it
overran — and in the loop's trace, cycle `k+1` starts strictly after the
`asyncio.gather` barrier of cycle `k`, which itself follows every task
event of cycle `k`'s batch: cycles never overlap. -/
theorem c4_scheduler (T D : ℚ) (batch : Nat → List SchedEv) (n k : Nat) :
    computedWait T D = max 0 (T - D) ∧
    0 ≤ computedWait T D ∧
    (D ≤ T → computedWait T D = T - D) ∧
    (T ≤ D → computedWait T D = 0) ∧
    (k + 1 < n → ∃ tail, schedTrace batch n =
      schedTrace batch k ++
        (SchedEv.cycleStart k :: batch k ++ [SchedEv.batchDone k, SchedEv.sleepDone k]) ++
        SchedEv.cycleStart (k + 1) :: tail) := by
  refine ⟨rfl, le_max_left 0 _, ?_, ?_, ?_⟩
  · intro h
    exact max_eq_right (by linarith)
  · intro h
    exact max_eq_left (by linarith)
  · intro hk
    obtain ⟨R, hR⟩ := schedTrace_mono batch n (k + 1 + 1) (by omega)
    refine ⟨batch (k + 1) ++ [SchedEv.batchDone (k + 1), SchedEv.sleepDone (k + 1)] ++ R, ?_⟩
    rw [hR, schedTrace, schedTrace]
    simp [List.append_assoc]

/-- C4 witness: a 70 s cycle against a 60 s target waits zero, and in a
three-cycle trace with empty batches cycle 1 starts after cycle 0's
barrier. -/
theorem c4_scheduler_witness :
    computedWait 60 70 = 0 ∧
    (∃ tail, schedTrace (fun _ => []) 3 =
      schedTrace (fun _ => []) 0 ++
        (SchedEv.cycleStart 0 :: [] ++ [SchedEv.batchDone 0, SchedEv.sleepDone 0]) ++
        SchedEv.cycleStart 1 :: tail) :=
  ⟨(c4_scheduler 60 70 (fun _ => []) 3 0).2.2.2.1 (by norm_num),
   (c4_scheduler 60 70 (fun _ => []) 3 0).2.2.2.2 (by norm_num)⟩

theorem holders_length_le {N : Nat} {tr : List (Nat × Act)} (h : SemTrace N tr) :
    (holders tr).length ≤ N := by
  induction h with
  | nil => simp [holders]
  | @acquire tr t h1 h2 h3 ih =>
    simp only [holders, List.length_cons]
    omega
  | @work tr t b h1 h2 ih =>
    simpa [holders] using ih
  | @release tr t h1 h2 ih =>
    calc ((holders tr).erase t).length ≤ (holders tr).length :=
          (List.erase_sublist t (holders tr)).length_le
      _ ≤ N := ih

theorem semTrace_suffix {N : Nat} :
    ∀ pre suf : List (Nat × Act), SemTrace N (pre ++ suf) → SemTrace N suf := by
  intro pre
  induction pre with
  | nil => intro suf h; exact h
  | cons e pre ih =>
    intro suf h
    rw [List.cons_append] at h
    cases h with
    | acquire h1 h2 h3 => exact ih suf h1
    | work h1 h2 => exact ih suf h1
    | release h1 h2 => exact ih suf h1

theorem holders_mem_acquired :
    ∀ (tr : List (Nat × Act)) (t : Nat), t ∈ holders tr → (t, Act.acquire) ∈ tr := by
  intro tr
  induction tr with
  | nil =>
    intro t h
    simp [holders] at h
  | cons e tr ih =>
    intro t h
    obtain ⟨te, ae⟩ := e
    cases ae with
    | acquire =>
      simp only [holders] at h
      rcases List.mem_cons.mp h with rfl | h'
      · exact List.mem_cons_self _ _
      · exact List.mem_cons_of_mem _ (ih t h')
    | work ok =>
      simp only [holders] at h
      exact List.mem_cons_of_mem _ (ih t h)
    | release =>
      simp only [holders] at h
      exact List.mem_cons_of_mem _ (ih t (List.mem_of_mem_erase h))

/-- C5.  Under `asyncio.Semaphore(N)`: at every instant of a valid trace
(i.e. after every prefix — here: in every suffix of the
most-recent-first history) at most `N` tasks hold a slot; a task performs
its body (the network/browser work of `gather_followers`) only while
holding a slot it acquired earlier; releases are by slot holders; and a
completed worker — whether its body succeeded or failed — leaves the
holder set exactly as it found it, its release having freed the slot. -/
theorem c5_concurrency_bound (N : Nat) (tr : List (Nat × Act)) (h : SemTrace N tr) :
    (∀ pre suf : List (Nat × Act), tr = pre ++ suf → (holders suf).length ≤ N) ∧
    (∀ (pre suf : List (Nat × Act)) (t : Nat) (b : Bool),
      tr = pre ++ (t, Act.work b) :: suf →
      t ∈ holders suf ∧ (t, Act.acquire) ∈ suf) ∧
    (∀ (pre suf : List (Nat × Act)) (t : Nat),
      tr = pre ++ (t, Act.release) :: suf → t ∈ holders suf) ∧
    ((holders tr).length < N → ∀ (t : Nat) (ok : Bool), t ∉ holders tr →
      SemTrace N (workerTrace t ok ++ tr) ∧
      holders (workerTrace t ok ++ tr) = holders tr) := by
  refine ⟨?_, ?_, ?_, ?_⟩
  · intro pre suf hsplit
    exact holders_length_le (semTrace_suffix pre suf (hsplit ▸ h))
  · intro pre suf t b hsplit
    have h2 := semTrace_suffix pre _ (hsplit ▸ h)
    cases h2 with
    | work h1 hmem => exact ⟨hmem, holders_mem_acquired _ _ hmem⟩
  · intro pre suf t hsplit
    have h2 := semTrace_suffix pre _ (hsplit ▸ h)
    cases h2 with
    | release h1 hmem => exact hmem
  · intro hlt t ok hnot
    have h1 : SemTrace N ((t, Act.acquire) :: tr) := SemTrace.acquire h hlt hnot
    have hm1 : t ∈ holders ((t, Act.acquire) :: tr) := by
      simp [holders]
    have h2 : SemTrace N ((t, Act.work ok) :: (t, Act.acquire) :: tr) :=
      SemTrace.work h1 hm1
    have hm2 : t ∈ holders ((t, Act.work ok) :: (t, Act.acquire) :: tr) := by
      simp [holders]
    refine ⟨SemTrace.release h2 hm2, ?_⟩
    simp [workerTrace, holders]

/-- C5 witness: with `N = 2`, after task 0 acquires, the bound holds. -/
theorem c5_concurrency_bound_witness :
    (holders [(0, Act.acquire)]).length ≤ 2 :=
  (c5_concurrency_bound 2 [(0, Act.acquire)]
    (SemTrace.acquire SemTrace.nil (by decide) (by decide))).1
    [] [(0, Act.acquire)] rfl


end SocialScraper
